import Mathlib

/-!
# Verification of the pokemon-mcp-stdio repository

Shallow embedding of the two source files:

* `src/client/main.py` — the `PokeBot` conversation-and-tool-dispatch loop
  (`process_query`, `chat_loop`);
* `src/web-client/pokemon-mcp-server/main.py` — the two server tools
  `get_pokemon_abilities` and `get_pokemon_stats`.

External effects (the Groq completion endpoint, the MCP tool session, the
upstream PokéAPI HTTP fetches) are modelled as explicit oracle functions
passed in as parameters; the observable trace of a call (messages built,
requests issued, tool invocations, escaping exception) is returned as data.
Python strings are `String`, Python ints are `Int`; `str.strip`,
`str.lower` and single-character `str.replace` are modelled by the
executable `pyStrip`, `pyLower` and `pyReplaceChar` below (the inputs the
claims exercise are ASCII).
-/

namespace PokeMcp

/-- Python `str.strip()`: drop leading and trailing whitespace. -/
def pyStrip (s : String) : String :=
  ⟨((s.data.dropWhile Char.isWhitespace).reverse.dropWhile Char.isWhitespace).reverse⟩

/-- Python `str.lower()` (ASCII case mapping). -/
def pyLower (s : String) : String :=
  ⟨s.data.map Char.toLower⟩

/-- Python `str.replace(old, new)` for a single-character pattern. -/
def pyReplaceChar (s : String) (old new : Char) : String :=
  ⟨s.data.map (fun c => if c = old then new else c)⟩

instance {ε α : Type} [DecidableEq ε] [DecidableEq α] : DecidableEq (Except ε α)
  | .error x, .error y =>
      if h : x = y then .isTrue (congrArg Except.error h)
      else .isFalse (fun hc => h (Except.error.inj hc))
  | .error _, .ok _ => .isFalse (fun hc => Except.noConfusion hc)
  | .ok _, .error _ => .isFalse (fun hc => Except.noConfusion hc)
  | .ok x, .ok y =>
      if h : x = y then .isTrue (congrArg Except.ok h)
      else .isFalse (fun hc => h (Except.ok.inj hc))

/-- One tool-call request emitted by the LLM response
(`tool_call.id`, `tool_call.function.name`, `tool_call.function.arguments`).
The client passes the `arguments` string through `json.loads` before dispatch;
argument-parse failures are outside the claims, so the raw string is handed to
the session oracle unchanged. -/
structure ToolCall where
  id : String
  name : String
  arguments : String
deriving DecidableEq, Repr

/-- The single message candidate of one completion response
(`response.choices[0].message`): optional text content plus the tool-call
list (`None` and `[]` are both falsy under `if tool_calls:`, so both are
modelled by the empty list). -/
structure AssistantResponse where
  content : Option String
  tool_calls : List ToolCall
deriving DecidableEq, Repr

/-- One typed content item of an MCP tool result (`item.text`). -/
structure ContentItem where
  text : String
deriving DecidableEq, Repr

/-- The `content` of a tool result: either a single text value or an ordered
sequence of typed items — the two shapes distinguished by the client's
`isinstance(result_content, list)` branch. -/
inductive ToolContent where
  | scalar (s : String)
  | items (l : List ContentItem)
deriving DecidableEq, Repr

/-- An MCP `CallToolResult`: `content` plus the protocol-level `isError`
flag (which the client code never inspects — it reads only `.content`). -/
structure ToolResult where
  content : ToolContent
  isError : Bool
deriving DecidableEq, Repr

/-- A message of the conversation history, as built by `process_query`:
the initial `user` dict, the raw assistant response object appended at
line 38 (content plus tool-call list), and the tool dict of lines 59-66. -/
inductive Message where
  | user (content : String)
  | assistant (content : Option String) (tool_calls : List ToolCall)
  | tool (tool_call_id : String) (name : String) (content : String)
deriving DecidableEq, Repr

/-- Lines 50-54 of `src/client/main.py`: a list result is joined as
`"\n".join(str(item.text) for item in result_content)`; any other value is
stored unchanged. -/
def normalizeContent : ToolContent → String
  | .scalar s => s
  | .items l => String.intercalate "\n" (l.map ContentItem.text)

/-- The observable trace of one `process_query` call:
`history` is the final value of the local `messages` list, `results` the
returned `result_messages`, `callLog` the `session.call_tool` invocations in
order, `requests` the message lists sent to the completion endpoint in order,
and `error` the exception escaping the call, if any. -/
structure TurnTrace where
  history : List Message
  results : List Message
  callLog : List (String × String)
  requests : List (List Message)
  error : Option String
deriving DecidableEq, Repr

/-- The tool messages appended by the dispatch loop of lines 40-66, one per
requested tool call, in request order. -/
def toolMessages (session : String → String → ToolResult) (calls : List ToolCall) :
    List Message :=
  calls.map fun tc =>
    Message.tool tc.id tc.name (normalizeContent (session tc.name tc.arguments).content)

/-- The full per-turn history right before the second completion request:
user message, assistant message carrying the tool calls, then the tool
messages in request order. -/
def fullHistory (session : String → String → ToolResult) (query : String)
    (resp : AssistantResponse) : List Message :=
  [Message.user query, Message.assistant resp.content resp.tool_calls] ++
    toolMessages session resp.tool_calls

/-- `PokeBot.process_query` (src/client/main.py lines 21-91), instrumented:
a fresh `messages` list holding only the user query, a first completion
request, then either the no-tool-call return or the dispatch loop followed by
the second completion request.  The completion endpoint is an oracle from the
request's message list to a response or a raised error; the or-else of a
raised error is the empty trace continuation (the exception escapes). -/
def process_query (llm : List Message → Except String AssistantResponse)
    (session : String → String → ToolResult) (query : String) : TurnTrace :=
  let messages := [Message.user query]
  match llm messages with
  | .error e =>
      { history := messages, results := [], callLog := [],
        requests := [messages], error := some e }
  | .ok resp =>
      if resp.tool_calls.isEmpty then
        -- lines 85-91: no tool calls
        { history := messages,
          results := [Message.assistant resp.content []],
          callLog := [], requests := [messages], error := none }
      else
        -- line 38: append the raw assistant response, then dispatch
        let messages := messages ++ [Message.assistant resp.content resp.tool_calls]
        let messages := messages ++ toolMessages session resp.tool_calls
        let callLog := resp.tool_calls.map fun tc => (tc.name, tc.arguments)
        match llm messages with
        | .error e =>
            { history := messages, results := [], callLog := callLog,
              requests := [[Message.user query], messages], error := some e }
        | .ok resp2 =>
            { history := messages,
              results := [Message.assistant resp2.content []],
              callLog := callLog,
              requests := [[Message.user query], messages], error := none }

/-- Outcome of one `chat_loop` iteration on one input line
(src/client/main.py lines 100-104). -/
inductive LoopStep where
  | closed
  | turn (query : String)
deriving DecidableEq, Repr

/-- Lines 100-102: the input is stripped; the loop breaks exactly when the
stripped text lowercases to `"quit"`, otherwise the stripped text becomes the
query of a new turn. -/
def chatLoopStep (input : String) : LoopStep :=
  let query := pyStrip input
  if pyLower query = "quit" then LoopStep.closed else LoopStep.turn query

/-- `PokeBot.chat_loop` over a list of input lines, instrumented to return
every message list sent to the completion endpoint, in order.  Each turn runs
`process_query` on a fresh message list; an escaping exception is caught by
the `except` clause of line 106 and the loop continues with the next input. -/
def chat_loop (llm : List Message → Except String AssistantResponse)
    (session : String → String → ToolResult) : List String → List (List Message)
  | [] => []
  | input :: rest =>
      match chatLoopStep input with
      | .closed => []
      | .turn q => (process_query llm session q).requests ++ chat_loop llm session rest

/-- `true` iff every tool-call id carried by an assistant message of the
list is matched by some tool message of the list with that `tool_call_id`. -/
def matchedHistory (ms : List Message) : Bool :=
  ms.all fun m =>
    match m with
    | .assistant _ tcs =>
        tcs.all fun tc =>
          ms.any fun m' =>
            match m' with
            | .tool id _ _ => id == tc.id
            | _ => false
    | _ => true

/-- Modelled from the spec: the Tool Session's `callTool` operation is the
external MCP client-session/server boundary, which is not under `src/`.
Per §4.3 of the spec it "fails with a tool-level error if `name` is unknown
or the server-side tool raises; such a failure must be caught and converted
into tool Message content describing the error rather than propagated".
`server` maps a tool name to its implementation (or `none` when unknown);
a failing invocation is converted into error-description content with the
protocol `isError` flag set. -/
def callTool (server : String → Option (String → Except String ToolContent))
    (name : String) (args : String) : ToolResult :=
  match server name with
  | none => { content := .scalar ("Unknown tool: " ++ name), isError := true }
  | some f =>
      match f args with
      | .error e => { content := .scalar ("Error executing tool: " ++ e), isError := true }
      | .ok c => { content := c, isError := false }

/-! ## Server side: `src/web-client/pokemon-mcp-server/main.py`

The upstream PokéAPI is an oracle from a URL to an HTTP outcome; the JSON
bodies are modelled by typed structures whose `Option` fields are exactly the
keys whose absence the code turns into a `KeyError` (keys the claims
exercise); sub-keys the code reads unconditionally are modelled as present.
Python exceptions are the `PyExc` type, and each function's `try/except`
chain is an explicit translation applied to the escaping exception. -/

/-- The Python exceptions raised or caught by the two tool functions.
`requestException` also stands for its subclasses raised by
`raise_for_status` (an `HTTPError` is a `RequestException`); `timeout` and
`connectionError` are listed before it, as in the `except` chains. -/
inductive PyExc where
  | valueError (msg : String)
  | timeout
  | connectionError
  | requestException (msg : String)
  | keyError (key : String)
  | exception (msg : String)
deriving DecidableEq, Repr

/-- Outcome of one `requests.get(url, timeout=10)` call: a timeout, a
connection error, or a response with a status code and a parsed JSON body. -/
inductive FetchOutcome (β : Type) where
  | timeout
  | connectionError
  | status (code : Nat) (body : β)
deriving DecidableEq, Repr

def base_url : String := "https://pokeapi.co/api/v2"

/-- The `pokemon_url` built from the (cleaned) name:
`f"{base_url}/pokemon/{name}"`. -/
def pokemon_url (name : String) : String := base_url ++ "/pokemon/" ++ name

/-- `stat_entry["stat"]` of the PokéAPI stats array. -/
structure StatRef where
  name : String
deriving DecidableEq, Repr

/-- One entry of `pokemon_data["stats"]`. -/
structure StatEntryJson where
  stat : StatRef
  base_stat : Int
  effort : Int
deriving DecidableEq, Repr

/-- The JSON body fetched by `get_pokemon_stats`; `Option` marks the keys
whose absence raises a `KeyError` in the source. -/
structure PokemonStatsJson where
  name : Option String
  id : Option Int
  stats : Option (List StatEntryJson)
deriving DecidableEq, Repr

/-- One entry of the `stat_details` list (lines 174-180). -/
structure StatDetail where
  stat_name : String
  base_stat : Int
  effort : Int
deriving DecidableEq, Repr

/-- The result dictionary of `get_pokemon_stats` (lines 186-192).
`base_stats` is a Python dict, modelled as its insertion-ordered
key/value list. -/
structure StatsResult where
  pokemon_name : String
  pokemon_id : Int
  base_stats : List (String × Int)
  total_base_stats : Int
  stat_details : List StatDetail
deriving DecidableEq, Repr

/-- Python dict assignment `d[k] = v`: an existing key keeps its position
and gets the new value, a new key is appended. -/
def dictInsert (d : List (String × Int)) (k : String) (v : Int) :
    List (String × Int) :=
  if d.any (fun p => p.1 == k) then
    d.map (fun p => if p.1 == k then (k, v) else p)
  else d ++ [(k, v)]

/-- The `for stat_entry in pokemon_data["stats"]` loop of lines 165-183,
with the three loop-carried variables made explicit. -/
def statsLoop : List StatEntryJson → List (String × Int) → List StatDetail → Int →
    List (String × Int) × List StatDetail × Int
  | [], base_stats, stat_details, total_stats => (base_stats, stat_details, total_stats)
  | e :: rest, base_stats, stat_details, total_stats =>
      statsLoop rest (dictInsert base_stats e.stat.name e.base_stat)
        (stat_details ++ [⟨e.stat.name, e.base_stat, e.effort⟩])
        (total_stats + e.base_stat)

/-- The `try` body of `get_pokemon_stats` (lines 147-194), paired with the
list of URLs requested.  The 404 message interpolates the *original*
`pokemon_name` argument (line 152), not `clean_name`. -/
def get_pokemon_stats_body (fetch : String → FetchOutcome PokemonStatsJson)
    (pokemon_name clean_name : String) : Except PyExc StatsResult × List String :=
  match fetch (pokemon_url clean_name) with
  | .timeout => (.error .timeout, [pokemon_url clean_name])
  | .connectionError => (.error .connectionError, [pokemon_url clean_name])
  | .status code body =>
      if code == 404 then
        (.error (.valueError ("Pokémon '" ++ pokemon_name ++
          "' not found. Please check the spelling and try again.")), [pokemon_url clean_name])
      else if 400 ≤ code then
        -- response.raise_for_status(): HTTPError, a RequestException subclass
        (.error (.requestException ("HTTP error " ++ toString code ++ " for url: " ++
          pokemon_url clean_name)), [pokemon_url clean_name])
      else
        match body.stats with
        | none => (.error (.keyError "stats"), [pokemon_url clean_name])
        | some entries =>
            match body.name with
            | none => (.error (.keyError "name"), [pokemon_url clean_name])
            | some nm =>
                match body.id with
                | none => (.error (.keyError "id"), [pokemon_url clean_name])
                | some pid =>
                    (.ok { pokemon_name := nm, pokemon_id := pid,
                           base_stats := (statsLoop entries [] [] 0).1,
                           total_base_stats := (statsLoop entries [] [] 0).2.2,
                           stat_details := (statsLoop entries [] [] 0).2.1 },
                     [pokemon_url clean_name])

/-- The `except` chain of `get_pokemon_stats` (lines 196-213), applied to an
exception escaping the `try` body.  A `ValueError` raised inside the body
(the 404 branch) matches none of the first four clauses and is re-raised by
the final `except Exception` as a generic `Exception`. -/
def statsExceptChain : PyExc → PyExc
  | .timeout => .requestException
      "Request timed out while fetching Pokémon data. Please try again."
  | .connectionError => .requestException
      "Unable to connect to PokéAPI. Please check your internet connection."
  | .requestException m => .requestException ("Failed to fetch Pokémon data: " ++ m)
  | .keyError k => .exception
      ("Unexpected API response format. Missing expected field: '" ++ k ++ "'")
  | .valueError m => .exception
      ("An unexpected error occurred while processing Pokémon stats: " ++ m)
  | .exception m => .exception
      ("An unexpected error occurred while processing Pokémon stats: " ++ m)

/-- Apply an `except` chain to the escaping exception of a `try` body. -/
def applyExceptChain {R : Type} (chain : PyExc → PyExc) :
    Except PyExc R × List String → Except PyExc R × List String
  | (.error e, log) => (.error (chain e), log)
  | r => r

/-- `get_pokemon_stats` (lines 128-213): the string-type guard is type-level
and elided; the emptiness validation of lines 139-140 runs before the `try`
(so its `ValueError` escapes untranslated and before any fetch); the name is
lowercased then stripped into `clean_name` (line 142). -/
def get_pokemon_stats (fetch : String → FetchOutcome PokemonStatsJson)
    (pokemon_name : String) : Except PyExc StatsResult × List String :=
  if pokemon_name = "" ∨ pyStrip pokemon_name = "" then
    (.error (.valueError "Pokemon name cannot be empty"), [])
  else
    let clean_name := pyStrip (pyLower pokemon_name)
    applyExceptChain statsExceptChain (get_pokemon_stats_body fetch pokemon_name clean_name)

/-- `ability_entry["ability"]` of the PokéAPI abilities array. -/
structure AbilityRef where
  name : String
  url : String
deriving DecidableEq, Repr

/-- One entry of `pokemon_data["abilities"]`. -/
structure AbilityEntryJson where
  ability : AbilityRef
  is_hidden : Bool
  slot : Int
deriving DecidableEq, Repr

/-- A `language` reference inside a flavor-text or effect entry. -/
structure LangRef where
  name : String
deriving DecidableEq, Repr

/-- One entry of `flavor_text_entries`. -/
structure FlavorTextEntry where
  language : LangRef
  flavor_text : String
deriving DecidableEq, Repr

/-- One entry of `effect_entries`. -/
structure EffectEntry where
  language : LangRef
  effect : String
deriving DecidableEq, Repr

/-- The `generation` object of an ability detail body. -/
structure GenerationRef where
  name : String
deriving DecidableEq, Repr

/-- The JSON body of one ability-detail fetch. `flavor_text_entries` and
`effect_entries` are read with `.get(..., [])`, so a missing key is the empty
list; `generation` is read with `[...]` and its absence is a `KeyError`. -/
structure AbilityDetailJson where
  flavor_text_entries : List FlavorTextEntry
  effect_entries : List EffectEntry
  generation : Option GenerationRef
deriving DecidableEq, Repr

/-- The JSON body fetched by `get_pokemon_abilities`; `Option` marks the
keys whose absence raises a `KeyError`. -/
structure PokemonAbilitiesJson where
  name : Option String
  id : Option Int
  abilities : Option (List AbilityEntryJson)
deriving DecidableEq, Repr

/-- One `ability_info` dict: the three detail fields are only present
(`some`) when the detail sub-fetch succeeded. -/
structure AbilityInfo where
  name : String
  is_hidden : Bool
  slot : Int
  description : Option String
  effect : Option String
  generation : Option String
deriving DecidableEq, Repr

/-- The result dictionary of `get_pokemon_abilities` (lines 48-52, 104-109). -/
structure AbilitiesResult where
  pokemon_name : String
  pokemon_id : Int
  abilities : List AbilityInfo
deriving DecidableEq, Repr

/-- The `for ability_entry in pokemon_data["abilities"]` loop of lines
55-104, paired with the ability-detail URLs requested in order.  The inner
`try/except requests.exceptions.RequestException` keeps the partial
`ability_info` on a transport or HTTP failure of the sub-fetch (the warning
print is not modelled); a missing `generation` key raises a `KeyError` that
escapes the inner handler.  `time.sleep(0.1)` is real-time pacing and is not
modelled. -/
def abilitiesLoop (fetchAbility : String → FetchOutcome AbilityDetailJson) :
    List AbilityEntryJson → Except PyExc (List AbilityInfo) × List String
  | [] => (.ok [], [])
  | entry :: rest =>
      let baseInfo : AbilityInfo :=
        { name := entry.ability.name, is_hidden := entry.is_hidden, slot := entry.slot,
          description := none, effect := none, generation := none }
      let ability_url := entry.ability.url
      match fetchAbility ability_url with
      | .timeout =>
          let r := abilitiesLoop fetchAbility rest
          (r.1.map (fun l => baseInfo :: l), ability_url :: r.2)
      | .connectionError =>
          let r := abilitiesLoop fetchAbility rest
          (r.1.map (fun l => baseInfo :: l), ability_url :: r.2)
      | .status code detail =>
          if 400 ≤ code then
            -- ability_response.raise_for_status(): caught by the inner handler
            let r := abilitiesLoop fetchAbility rest
            (r.1.map (fun l => baseInfo :: l), ability_url :: r.2)
          else
            match detail.generation with
            | none => (.error (.keyError "generation"), [ability_url])
            | some gen =>
                let description :=
                  match detail.flavor_text_entries.find? (fun ft => ft.language.name == "en") with
                  | some ft => pyReplaceChar (pyReplaceChar ft.flavor_text '\n' ' ') '\x0c' ' '
                  | none => "No description available"
                let effectText :=
                  match detail.effect_entries.find? (fun fe => fe.language.name == "en") with
                  | some fe => fe.effect
                  | none => "No effect description available"
                let info := { baseInfo with
                              description := some description
                              effect := some effectText
                              generation := some gen.name }
                let r := abilitiesLoop fetchAbility rest
                (r.1.map (fun l => info :: l), ability_url :: r.2)

/-- The `try` body of `get_pokemon_abilities` (lines 37-109), paired with
the list of URLs requested.  `pokemon_name` here is the already
lowercased/stripped value (the source reassigns the parameter at line 30),
so the 404 message interpolates the cleaned name.  The final
`result["abilities"].sort(key=lambda x: x["slot"])` is Python's stable sort
by slot. -/
def get_pokemon_abilities_body
    (fetchPokemon : String → FetchOutcome PokemonAbilitiesJson)
    (fetchAbility : String → FetchOutcome AbilityDetailJson)
    (pokemon_name : String) : Except PyExc AbilitiesResult × List String :=
  match fetchPokemon (pokemon_url pokemon_name) with
  | .timeout => (.error .timeout, [pokemon_url pokemon_name])
  | .connectionError => (.error .connectionError, [pokemon_url pokemon_name])
  | .status code body =>
      if code == 404 then
        (.error (.valueError ("Pokémon '" ++ pokemon_name ++ "' not found")),
         [pokemon_url pokemon_name])
      else if 400 ≤ code then
        (.error (.requestException ("HTTP error " ++ toString code ++ " for url: " ++
          pokemon_url pokemon_name)), [pokemon_url pokemon_name])
      else
        match body.name with
        | none => (.error (.keyError "name"), [pokemon_url pokemon_name])
        | some nm =>
            match body.id with
            | none => (.error (.keyError "id"), [pokemon_url pokemon_name])
            | some pid =>
                match body.abilities with
                | none => (.error (.keyError "abilities"), [pokemon_url pokemon_name])
                | some entries =>
                    match (abilitiesLoop fetchAbility entries).1 with
                    | .error e =>
                        (.error e,
                         pokemon_url pokemon_name :: (abilitiesLoop fetchAbility entries).2)
                    | .ok infos =>
                        (.ok { pokemon_name := nm, pokemon_id := pid,
                               abilities := infos.mergeSort
                                 (fun x y => decide (x.slot ≤ y.slot)) },
                         pokemon_url pokemon_name :: (abilitiesLoop fetchAbility entries).2)

/-- The `except` chain of `get_pokemon_abilities` (lines 111-124).  As in
`statsExceptChain`, the `ValueError` of the 404 branch is re-raised by the
final `except Exception` as a generic `Exception`. -/
def abilitiesExceptChain : PyExc → PyExc
  | .timeout => .requestException "Request timed out. Please try again."
  | .connectionError => .requestException
      "Connection error. Please check your internet connection."
  | .requestException m => .requestException ("API request failed: " ++ m)
  | .keyError k => .exception
      ("Unexpected API response structure. Missing key: '" ++ k ++ "'")
  | .valueError m => .exception ("An unexpected error occurred: " ++ m)
  | .exception m => .exception ("An unexpected error occurred: " ++ m)

/-- `get_pokemon_abilities` (lines 15-124): the emptiness check of line 26
(`if not pokemon_name`) rejects exactly the empty string, before any fetch;
the string branch of line 29 reassigns the name to its lowercased, stripped
form.  The `int` branch is unreachable for the declared `str` parameter and
is elided. -/
def get_pokemon_abilities
    (fetchPokemon : String → FetchOutcome PokemonAbilitiesJson)
    (fetchAbility : String → FetchOutcome AbilityDetailJson)
    (pokemon_name : String) : Except PyExc AbilitiesResult × List String :=
  if pokemon_name = "" then
    (.error (.valueError "Pokemon identifier cannot be empty"), [])
  else
    applyExceptChain abilitiesExceptChain
      (get_pokemon_abilities_body fetchPokemon fetchAbility (pyStrip (pyLower pokemon_name)))

/-! ## Concrete oracle instances

Closed instances of the completion endpoint, tool session and PokéAPI
oracles, used to evaluate the embedded functions at specific inputs. -/

/-- A first completion response requesting exactly one tool call. -/
def respOneTool : AssistantResponse :=
  { content := some "calling",
    tool_calls := [{ id := "id1", name := "get_pokemon_stats", arguments := "argx" }] }

/-- A completion endpoint that requests one tool call on the first request
(the request carrying only the user message) and answers plainly on the
second. -/
def llmOneTool : List Message → Except String AssistantResponse := fun ms =>
  if ms.length == 1 then .ok respOneTool else .ok { content := some "done", tool_calls := [] }

/-- A completion endpoint that never requests tool calls. -/
def llmNoTool : List Message → Except String AssistantResponse :=
  fun _ => .ok { content := some "hi", tool_calls := [] }

/-- A completion endpoint whose every request fails. -/
def llmFailFirst : List Message → Except String AssistantResponse :=
  fun _ => .error "connection reset"

/-- A completion endpoint that requests one tool call on the first request
and fails on the second. -/
def llmFailSecond : List Message → Except String AssistantResponse := fun ms =>
  if ms.length == 1 then .ok respOneTool else .error "rate limited"

/-- A tool session whose every call returns a two-item text sequence. -/
def sessionStub : String → String → ToolResult :=
  fun _ _ => { content := .items [{ text := "hello" }, { text := "world" }], isError := false }

/-- A tool server exposing a single tool named `known_tool`. -/
def serverStub : String → Option (String → Except String ToolContent) :=
  fun name => if name = "known_tool" then some (fun _ => .ok (.scalar "ok")) else none

/-- An empty stats JSON body (every expected key missing). -/
def statsBodyEmpty : PokemonStatsJson := { name := none, id := none, stats := none }

/-- A PokéAPI oracle answering every stats fetch with HTTP 404. -/
def fetch404 : String → FetchOutcome PokemonStatsJson := fun _ => .status 404 statsBodyEmpty

/-- A PokéAPI oracle timing out on every stats fetch. -/
def fetchTimeout : String → FetchOutcome PokemonStatsJson := fun _ => .timeout

/-- A PokéAPI oracle answering HTTP 200 with a body missing the `stats` key. -/
def fetch200NoStats : String → FetchOutcome PokemonStatsJson :=
  fun _ => .status 200 { name := some "pikachu", id := some 25, stats := none }

/-- Charizard's six base stats as served by the PokéAPI. -/
def charizardStats : List StatEntryJson :=
  [{ stat := { name := "hp" }, base_stat := 78, effort := 0 },
   { stat := { name := "attack" }, base_stat := 84, effort := 0 },
   { stat := { name := "defense" }, base_stat := 78, effort := 0 },
   { stat := { name := "special-attack" }, base_stat := 109, effort := 3 },
   { stat := { name := "special-defense" }, base_stat := 85, effort := 0 },
   { stat := { name := "speed" }, base_stat := 100, effort := 0 }]

/-- A PokéAPI oracle serving charizard's stats body on every fetch. -/
def fetchCharizard : String → FetchOutcome PokemonStatsJson :=
  fun _ => .status 200 { name := some "charizard", id := some 6, stats := some charizardStats }

/-- An empty abilities JSON body. -/
def abilitiesBodyEmpty : PokemonAbilitiesJson := { name := none, id := none, abilities := none }

/-- A PokéAPI oracle answering every abilities fetch with HTTP 404. -/
def afetch404 : String → FetchOutcome PokemonAbilitiesJson :=
  fun _ => .status 404 abilitiesBodyEmpty

/-- A PokéAPI oracle timing out on every ability-detail fetch. -/
def dfetchTimeout : String → FetchOutcome AbilityDetailJson := fun _ => .timeout

/-- The result `get_pokemon_stats` builds from `charizardStats`. -/
def charizardResult : StatsResult :=
  { pokemon_name := "charizard", pokemon_id := 6,
    base_stats := [("hp", 78), ("attack", 84), ("defense", 78),
      ("special-attack", 109), ("special-defense", 85), ("speed", 100)],
    total_base_stats := 534,
    stat_details := [⟨"hp", 78, 0⟩, ⟨"attack", 84, 0⟩, ⟨"defense", 78, 0⟩,
      ⟨"special-attack", 109, 3⟩, ⟨"special-defense", 85, 0⟩, ⟨"speed", 100, 0⟩] }

/-! ## Theorems -/

/-- Helper: the trace of a turn whose first completion request fails. -/
theorem process_query_first_error
    (llm : List Message → Except String AssistantResponse)
    (session : String → String → ToolResult) (q e : String)
    (h : llm [Message.user q] = .error e) :
    process_query llm session q =
      { history := [Message.user q], results := [], callLog := [],
        requests := [[Message.user q]], error := some e } := by
  simp [process_query, h]

/-- Helper: the trace of a turn whose first completion response requests no
tool calls. -/
theorem process_query_no_tool
    (llm : List Message → Except String AssistantResponse)
    (session : String → String → ToolResult) (q : String) (resp : AssistantResponse)
    (h : llm [Message.user q] = .ok resp) (hnil : resp.tool_calls = []) :
    process_query llm session q =
      { history := [Message.user q], results := [Message.assistant resp.content []],
        callLog := [], requests := [[Message.user q]], error := none } := by
  simp [process_query, h, hnil]

/-- Helper: the trace of a turn whose first completion response requests at
least one tool call, for each outcome of the second completion request. -/
theorem process_query_tool_branch
    (llm : List Message → Except String AssistantResponse)
    (session : String → String → ToolResult) (q : String) (resp : AssistantResponse)
    (h1 : llm [Message.user q] = .ok resp) (hne : resp.tool_calls ≠ []) :
    (process_query llm session q).history = fullHistory session q resp ∧
    (process_query llm session q).callLog =
      resp.tool_calls.map (fun tc => (tc.name, tc.arguments)) ∧
    (process_query llm session q).requests =
      [[Message.user q], fullHistory session q resp] ∧
    (∀ resp2, llm (fullHistory session q resp) = .ok resp2 →
        (process_query llm session q).results = [Message.assistant resp2.content []] ∧
        (process_query llm session q).error = none) ∧
    (∀ e, llm (fullHistory session q resp) = .error e →
        (process_query llm session q).results = [] ∧
        (process_query llm session q).error = some e) := by
  rcases hcalls : resp.tool_calls with _ | ⟨tc, rest⟩
  · exact absurd hcalls hne
  · have hfh : fullHistory session q resp =
        Message.user q :: Message.assistant resp.content (tc :: rest) ::
          toolMessages session (tc :: rest) := by
      simp [fullHistory, hcalls]
    cases h2 : llm (Message.user q :: Message.assistant resp.content (tc :: rest) ::
        toolMessages session (tc :: rest)) with
    | error e =>
        refine ⟨by simp [process_query, h1, hcalls, h2, hfh],
          by simp [process_query, h1, hcalls, h2],
          by simp [process_query, h1, hcalls, h2, hfh], ?_, ?_⟩
        · intro resp2 hresp2
          rw [hfh] at hresp2
          rw [hresp2] at h2
          exact absurd h2 (by simp)
        · intro e' he'
          rw [hfh] at he'
          exact ⟨by simp [process_query, h1, hcalls, he'],
            by simp [process_query, h1, hcalls, he']⟩
    | ok resp2 =>
        refine ⟨by simp [process_query, h1, hcalls, h2, hfh],
          by simp [process_query, h1, hcalls, h2],
          by simp [process_query, h1, hcalls, h2, hfh], ?_, ?_⟩
        · intro resp2' hresp2'
          rw [hfh] at hresp2'
          exact ⟨by simp [process_query, h1, hcalls, hresp2'],
            by simp [process_query, h1, hcalls, hresp2']⟩
        · intro e' he'
          rw [hfh] at he'
          rw [he'] at h2
          exact absurd h2 (by simp)

/-- Helper: every tool-call id carried by an assistant message of a
`fullHistory` list is matched by a tool message of the same list. -/
theorem matchedHistory_fullHistory
    (session : String → String → ToolResult) (q : String) (resp : AssistantResponse) :
    matchedHistory (fullHistory session q resp) = true := by
  simp only [matchedHistory, List.all_eq_true]
  intro m hm
  cases m with
  | user c => rfl
  | tool a b c => rfl
  | assistant c tcs =>
      have htcs : tcs = resp.tool_calls := by
        simp only [fullHistory, toolMessages, List.mem_append, List.mem_cons,
          List.mem_map, List.not_mem_nil] at hm
        rcases hm with (hm | hm | hm) | hm
        · exact absurd hm (by simp)
        · exact (Message.assistant.inj hm).2
        · exact absurd hm (by simp)
        · rcases hm with ⟨tc, _, hm⟩
          exact absurd hm (by simp)
      show tcs.all _ = true
      simp only [List.all_eq_true]
      intro tc htc
      simp only [List.any_eq_true]
      refine ⟨Message.tool tc.id tc.name
        (normalizeContent (session tc.name tc.arguments).content), ?_, by simp⟩
      simp only [fullHistory, toolMessages, List.mem_append, List.mem_cons, List.mem_map]
      right
      exact ⟨tc, htcs ▸ htc, rfl⟩

/-- C1 amended: in a turn whose first completion response requests `n >= 1`
tool calls, exactly `n + 1` messages are appended to the history after the
user message — the assistant message carrying the tool calls, then `n` tool
messages in request order, each with `tool_call_id` equal to its request's
id and `name` equal to the requested function name — and the Tool Session is
invoked exactly `n` times, in request order; the final assistant message is
appended to the separately returned result list, not to the history.  For a
turn with zero tool calls the history holds only the user message, the
assistant reply is returned in the result list and the Tool Session is never
invoked. -/
theorem turn_appended_messages
    (llm : List Message → Except String AssistantResponse)
    (session : String → String → ToolResult) (q : String) (resp : AssistantResponse)
    (h1 : llm [Message.user q] = .ok resp) :
    (resp.tool_calls = [] →
        (process_query llm session q).history = [Message.user q] ∧
        (process_query llm session q).results = [Message.assistant resp.content []] ∧
        (process_query llm session q).callLog = []) ∧
    (resp.tool_calls ≠ [] →
        (process_query llm session q).history =
          [Message.user q, Message.assistant resp.content resp.tool_calls] ++
            resp.tool_calls.map (fun tc => Message.tool tc.id tc.name
              (normalizeContent (session tc.name tc.arguments).content)) ∧
        (process_query llm session q).callLog =
          resp.tool_calls.map (fun tc => (tc.name, tc.arguments)) ∧
        ∀ resp2, llm (fullHistory session q resp) = .ok resp2 →
          (process_query llm session q).results = [Message.assistant resp2.content []]) := by
  constructor
  · intro hnil
    rw [process_query_no_tool llm session q resp h1 hnil]
    exact ⟨rfl, rfl, rfl⟩
  · intro hne
    obtain ⟨hh, hlog, -, hok, -⟩ := process_query_tool_branch llm session q resp h1 hne
    exact ⟨hh, hlog, fun resp2 h2 => (hok resp2 h2).1⟩

/-- C1 witness: the amended turn shape evaluated at a no-tool-call endpoint
and at a one-tool-call endpoint. -/
theorem turn_appended_messages_witness :
    ((process_query llmNoTool sessionStub "q").history = [Message.user "q"] ∧
      (process_query llmNoTool sessionStub "q").results =
        [Message.assistant (some "hi") []] ∧
      (process_query llmNoTool sessionStub "q").callLog = []) ∧
    ((process_query llmOneTool sessionStub "q").history =
        [Message.user "q", Message.assistant (some "calling") respOneTool.tool_calls] ++
          respOneTool.tool_calls.map (fun tc => Message.tool tc.id tc.name
            (normalizeContent (sessionStub tc.name tc.arguments).content)) ∧
      (process_query llmOneTool sessionStub "q").callLog =
        [("get_pokemon_stats", "argx")] ∧
      (process_query llmOneTool sessionStub "q").results =
        [Message.assistant (some "done") []]) := by
  constructor
  · exact (turn_appended_messages llmNoTool sessionStub "q"
      { content := some "hi", tool_calls := [] } (by decide)).1 rfl
  · obtain ⟨hh, hlog, hres⟩ := (turn_appended_messages llmOneTool sessionStub "q"
      respOneTool (by decide)).2 (by decide)
    exact ⟨hh, hlog, hres { content := some "done", tool_calls := [] } (by decide)⟩

/-- C3: a failing completion request leaves the turn's message history
exactly as it was immediately before the request was issued — a failing
first request leaves only the user message (and an empty invocation log),
a failing second request leaves the user message, the assistant tool-call
message and the full set of matching tool messages (no unmatched tool-call
id) — the returned result list is empty, and the loop catches the escaping
exception and goes on to await the next user input. -/
theorem completion_failure_preserves_history
    (llm : List Message → Except String AssistantResponse)
    (session : String → String → ToolResult) (q : String) :
    (∀ e, llm [Message.user q] = .error e →
        process_query llm session q =
          { history := [Message.user q], results := [], callLog := [],
            requests := [[Message.user q]], error := some e }) ∧
    (∀ resp e, llm [Message.user q] = .ok resp → resp.tool_calls ≠ [] →
        llm (fullHistory session q resp) = .error e →
        (process_query llm session q).history = fullHistory session q resp ∧
        (process_query llm session q).results = [] ∧
        (process_query llm session q).error = some e ∧
        matchedHistory (fullHistory session q resp) = true) ∧
    (∀ s rest query, chatLoopStep s = LoopStep.turn query →
        chat_loop llm session (s :: rest) =
          (process_query llm session query).requests ++ chat_loop llm session rest) := by
  refine ⟨?_, ?_, ?_⟩
  · intro e he
    exact process_query_first_error llm session q e he
  · intro resp e h1 hne h2
    obtain ⟨hh, -, -, -, herr⟩ := process_query_tool_branch llm session q resp h1 hne
    exact ⟨hh, (herr e h2).1, (herr e h2).2, matchedHistory_fullHistory session q resp⟩
  · intro s rest query hstep
    simp [chat_loop, hstep]

/-- C3 witness: the failure shape evaluated at an endpoint failing on the
first request and at one failing on the second request. -/
theorem completion_failure_preserves_history_witness :
    process_query llmFailFirst sessionStub "q" =
      { history := [Message.user "q"], results := [], callLog := [],
        requests := [[Message.user "q"]], error := some "connection reset" } ∧
    ((process_query llmFailSecond sessionStub "q").history =
        fullHistory sessionStub "q" respOneTool ∧
      (process_query llmFailSecond sessionStub "q").results = [] ∧
      (process_query llmFailSecond sessionStub "q").error = some "rate limited" ∧
      matchedHistory (fullHistory sessionStub "q" respOneTool) = true) := by
  constructor
  · exact (completion_failure_preserves_history llmFailFirst sessionStub "q").1
      "connection reset" (by decide)
  · exact (completion_failure_preserves_history llmFailSecond sessionStub "q").2.1
      respOneTool "rate limited" (by decide) (by decide) (by decide)

/-- C4: when a dispatched tool call's invocation fails (unknown tool name,
or the tool raises), the Tool Session boundary converts the failure into
error-description content of an ordinary tool message that lands in the
history paired with that `tool_call_id`; the second completion request is
still issued and, when it succeeds, the turn completes normally with the
final assistant message. -/
theorem tool_failure_contained
    (llm : List Message → Except String AssistantResponse)
    (server : String → Option (String → Except String ToolContent))
    (q : String) (resp : AssistantResponse) (tc : ToolCall)
    (h1 : llm [Message.user q] = .ok resp)
    (htc : tc ∈ resp.tool_calls)
    (hfail : server tc.name = none ∨
      ∃ f e, server tc.name = some f ∧ f tc.arguments = .error e) :
    (∃ desc, (callTool server tc.name tc.arguments).content = ToolContent.scalar desc ∧
        (callTool server tc.name tc.arguments).isError = true ∧
        Message.tool tc.id tc.name desc ∈
          (process_query llm (callTool server) q).history) ∧
    (process_query llm (callTool server) q).requests.length = 2 ∧
    (∀ resp2, llm (fullHistory (callTool server) q resp) = .ok resp2 →
        (process_query llm (callTool server) q).error = none ∧
        (process_query llm (callTool server) q).results =
          [Message.assistant resp2.content []]) := by
  have hne : resp.tool_calls ≠ [] := fun h => by simp [h] at htc
  obtain ⟨hh, -, hreq, hok, -⟩ :=
    process_query_tool_branch llm (callTool server) q resp h1 hne
  have hdesc : ∃ desc,
      callTool server tc.name tc.arguments = { content := .scalar desc, isError := true } := by
    rcases hfail with hnone | ⟨f, e, hf, he⟩
    · exact ⟨"Unknown tool: " ++ tc.name, by simp [callTool, hnone]⟩
    · exact ⟨"Error executing tool: " ++ e, by simp [callTool, hf, he]⟩
  obtain ⟨desc, hct⟩ := hdesc
  refine ⟨⟨desc, by rw [hct], by rw [hct], ?_⟩, by simp [hreq], ?_⟩
  · rw [hh]
    simp only [fullHistory, toolMessages, List.mem_append, List.mem_cons, List.mem_map]
    right
    refine ⟨tc, htc, ?_⟩
    simp [hct, normalizeContent]
  · intro resp2 h2
    exact ⟨(hok resp2 h2).2, (hok resp2 h2).1⟩

/-- C4 witness: a tool call to a name the server does not expose is turned
into an error-description tool message and the turn still completes. -/
theorem tool_failure_contained_witness :
    (∃ desc, (callTool serverStub "get_pokemon_stats" "argx").content =
        ToolContent.scalar desc ∧
      (callTool serverStub "get_pokemon_stats" "argx").isError = true ∧
      Message.tool "id1" "get_pokemon_stats" desc ∈
        (process_query llmOneTool (callTool serverStub) "q").history) ∧
    (process_query llmOneTool (callTool serverStub) "q").requests.length = 2 ∧
    (∀ resp2, llmOneTool (fullHistory (callTool serverStub) "q" respOneTool) = .ok resp2 →
        (process_query llmOneTool (callTool serverStub) "q").error = none ∧
        (process_query llmOneTool (callTool serverStub) "q").results =
          [Message.assistant resp2.content []]) :=
  tool_failure_contained llmOneTool serverStub "q" respOneTool
    { id := "id1", name := "get_pokemon_stats", arguments := "argx" }
    (by decide) (by decide) (Or.inl rfl)

/-- C5: the tool-result normalization stores a sequence-of-items result as
the items' text fields joined with newline characters, stores a scalar text
result unchanged, and is idempotent: re-normalizing an already-normalized
(scalar string) value leaves it unchanged. -/
theorem normalize_content_spec :
    (∀ l, normalizeContent (ToolContent.items l) =
        String.intercalate "\n" (l.map ContentItem.text)) ∧
    (∀ s, normalizeContent (ToolContent.scalar s) = s) ∧
    (∀ c, normalizeContent (ToolContent.scalar (normalizeContent c)) = normalizeContent c) :=
  ⟨fun _ => rfl, fun _ => rfl, fun _ => rfl⟩

/-- C9: calling `get_pokemon_abilities` with the empty string fails with the
validation `ValueError` and the requested-URL log is empty — the failure
happens before any outbound network request, whatever the upstream oracles
would answer. -/
theorem empty_name_validation
    (fetchPokemon : String → FetchOutcome PokemonAbilitiesJson)
    (fetchAbility : String → FetchOutcome AbilityDetailJson) :
    get_pokemon_abilities fetchPokemon fetchAbility "" =
      (.error (.valueError "Pokemon identifier cannot be empty"), []) :=
  rfl

/-- C8 counterexample: the empty input line is not a quit sentinel — the
loop starts a turn on it and a completion request (carrying the empty user
message) is issued, so the empty line does not terminate the run. -/
theorem empty_input_starts_turn :
    chatLoopStep "" = LoopStep.turn "" ∧
    chatLoopStep "" ≠ LoopStep.closed ∧
    chat_loop llmNoTool sessionStub [""] = [[Message.user ""]] := by
  refine ⟨rfl, by decide, rfl⟩

/-- C8 amended: the loop reaches its terminal state exactly on inputs whose
stripped text lowercases to `"quit"`; such an input ends the run with no
further completion request, while any other input (the empty line included)
starts a turn on the stripped text. -/
theorem quit_sentinel_exit
    (llm : List Message → Except String AssistantResponse)
    (session : String → String → ToolResult) (s : String) (rest : List String) :
    (chatLoopStep s = LoopStep.closed ↔ pyLower (pyStrip s) = "quit") ∧
    (pyLower (pyStrip s) = "quit" → chat_loop llm session (s :: rest) = []) ∧
    (pyLower (pyStrip s) ≠ "quit" →
      chat_loop llm session (s :: rest) =
        (process_query llm session (pyStrip s)).requests ++ chat_loop llm session rest) := by
  refine ⟨?_, fun h => ?_, fun h => ?_⟩
  · unfold chatLoopStep
    by_cases h : pyLower (pyStrip s) = "quit" <;> simp [h]
  · simp [chat_loop, chatLoopStep, h]
  · simp [chat_loop, chatLoopStep, h]

/-- C8 witness: `" QUIT "` (upper case, surrounded by whitespace) closes the
loop with no completion request issued, the following input unread. -/
theorem quit_sentinel_exit_witness :
    chat_loop llmNoTool sessionStub [" QUIT ", "b"] = [] :=
  (quit_sentinel_exit llmNoTool sessionStub " QUIT " ["b"]).2.1 (by decide)

/-- C2 counterexample: in a run over the inputs `["a", "b"]`, the completion
request of the second turn carries only that turn's user message — the first
turn's messages are not part of it, so the request history is not
accumulated for the whole run. -/
theorem no_cross_turn_history :
    (chat_loop llmNoTool sessionStub ["a", "b"]).get? 1 = some [Message.user "b"] ∧
    Message.user "a" ∉ [Message.user "b"] := by
  refine ⟨rfl, by decide⟩

/-- C2 amended: within one turn the conversation history is append-only and
every completion request carries the full history accumulated since the turn
started: the first request is exactly the fresh `[user]` list and the second
request, when issued, extends it in order with the messages appended in
between and equals the turn's final history.  The history is per turn, not
per run. -/
theorem requests_carry_turn_history
    (llm : List Message → Except String AssistantResponse)
    (session : String → String → ToolResult) (q : String) :
    (process_query llm session q).requests.head? = some [Message.user q] ∧
    ((process_query llm session q).requests = [[Message.user q]] ∨
      ∃ tail, (process_query llm session q).requests =
          [[Message.user q], [Message.user q] ++ tail] ∧
        (process_query llm session q).history = [Message.user q] ++ tail) := by
  cases h : llm [Message.user q] with
  | error e => simp [process_query, h]
  | ok resp =>
      rcases hcalls : resp.tool_calls with _ | ⟨tc, rest⟩
      · simp [process_query, h, hcalls]
      · cases h2 : llm (Message.user q :: Message.assistant resp.content (tc :: rest) ::
            toolMessages session (tc :: rest)) with
        | error e =>
            refine ⟨by simp [process_query, h, hcalls, h2], Or.inr
              ⟨Message.assistant resp.content (tc :: rest) :: toolMessages session (tc :: rest),
               ?_, ?_⟩⟩ <;> simp [process_query, h, hcalls, h2]
        | ok resp2 =>
            refine ⟨by simp [process_query, h, hcalls, h2], Or.inr
              ⟨Message.assistant resp.content (tc :: rest) :: toolMessages session (tc :: rest),
               ?_, ?_⟩⟩ <;> simp [process_query, h, hcalls, h2]

/-- C6: evaluation of the two tool functions at each upstream failure kind.
A timeout is translated into the transport `RequestException` category and a
missing `stats` key into the malformed-response `Exception` category, but an
HTTP 404 is *not* translated into the distinct not-found `ValueError`
category: the `ValueError` raised inside the `try` block is re-caught by the
final `except Exception` clause and re-raised as the same generic
`Exception` category used for unexpected internal errors, in both
`get_pokemon_stats` and `get_pokemon_abilities`. -/
theorem upstream_error_categories :
    (get_pokemon_stats fetchTimeout "pikachu").1 =
      .error (.requestException
        "Request timed out while fetching Pokémon data. Please try again.") ∧
    (get_pokemon_stats fetch200NoStats "pikachu").1 =
      .error (.exception "Unexpected API response format. Missing expected field: 'stats'") ∧
    (get_pokemon_stats fetch404 "missingno").1 =
      .error (.exception ("An unexpected error occurred while processing Pokémon stats: " ++
        "Pokémon 'missingno' not found. Please check the spelling and try again.")) ∧
    (get_pokemon_abilities afetch404 dfetchTimeout "missingno").1 =
      .error (.exception "An unexpected error occurred: Pokémon 'missingno' not found") := by
  refine ⟨rfl, rfl, rfl, rfl⟩

/-- C1 counterexample: in a turn whose first completion response requests
`n = 1` tool call, the history receives only `n + 1` messages after the user
message (the tool-call assistant message and one tool message): the final
assistant message is appended to the separately returned result list, never
to the history, so the history does not receive `n + 2 = 3` appended
messages (length `4`). -/
theorem final_answer_not_in_history :
    (process_query llmOneTool sessionStub "q").history =
      [Message.user "q",
       Message.assistant (some "calling")
         [{ id := "id1", name := "get_pokemon_stats", arguments := "argx" }],
       Message.tool "id1" "get_pokemon_stats" "hello\nworld"] ∧
    (process_query llmOneTool sessionStub "q").history.length ≠ 4 ∧
    (process_query llmOneTool sessionStub "q").results =
      [Message.assistant (some "done") []] := by
  refine ⟨rfl, by decide, rfl⟩

/-- C10 counterexample: `get_pokemon_abilities` rejects the empty string
before any fetch but sends an upstream request for the whitespace-only
string `" "` (whose cleaned name is empty), although the two arguments
differ only in surrounding whitespace; and two `get_pokemon_stats` calls
differing only in letter case produce different results on an upstream 404,
because the error message interpolates the original argument. -/
theorem name_invariance_fails :
    (get_pokemon_abilities afetch404 dfetchTimeout "").2 = [] ∧
    (get_pokemon_abilities afetch404 dfetchTimeout " ").2 =
      ["https://pokeapi.co/api/v2/pokemon/"] ∧
    (get_pokemon_stats fetch404 "ABC").1 ≠ (get_pokemon_stats fetch404 "abc").1 := by
  refine ⟨rfl, rfl, by decide⟩

/-- Helper: `applyExceptChain` leaves the requested-URL log unchanged. -/
theorem applyExceptChain_log {R : Type} (chain : PyExc → PyExc)
    (p : Except PyExc R × List String) : (applyExceptChain chain p).2 = p.2 := by
  rcases p with ⟨pe, log⟩
  cases pe <;> rfl

/-- Helper: `applyExceptChain` translates only errors, never successes. -/
theorem applyExceptChain_ok_iff {R : Type} (chain : PyExc → PyExc)
    (p : Except PyExc R × List String) (r : R) :
    (applyExceptChain chain p).1 = .ok r ↔ p.1 = .ok r := by
  rcases p with ⟨pe, log⟩
  cases pe <;> simp [applyExceptChain]

/-- Helper: `stat_details` accumulates one entry per stats-array entry, in
order. -/
theorem statsLoop_details (entries : List StatEntryJson) :
    ∀ bs det tot, (statsLoop entries bs det tot).2.1 =
      det ++ entries.map (fun e => StatDetail.mk e.stat.name e.base_stat e.effort) := by
  induction entries with
  | nil => intro bs det tot; simp [statsLoop]
  | cons e rest ih => intro bs det tot; simp [statsLoop, ih]

/-- Helper: the running total accumulates the `base_stat` values. -/
theorem statsLoop_total (entries : List StatEntryJson) :
    ∀ bs det tot, (statsLoop entries bs det tot).2.2 =
      tot + (entries.map StatEntryJson.base_stat).sum := by
  induction entries with
  | nil => intro bs det tot; simp [statsLoop]
  | cons e rest ih =>
      intro bs det tot
      rw [show statsLoop (e :: rest) bs det tot =
        statsLoop rest (dictInsert bs e.stat.name e.base_stat)
          (det ++ [⟨e.stat.name, e.base_stat, e.effort⟩]) (tot + e.base_stat) from rfl]
      rw [ih]
      simp
      omega

/-- Helper: Python dict assignment with a fresh key appends the pair. -/
theorem dictInsert_fresh (bs : List (String × Int)) (k : String) (v : Int)
    (h : ∀ p ∈ bs, p.1 ≠ k) : dictInsert bs k v = bs ++ [(k, v)] := by
  have hcond : ¬((bs.any fun p => p.1 == k) = true) := by
    simp only [List.any_eq_true, beq_iff_eq, not_exists, not_and]
    exact fun p hp => h p hp
  unfold dictInsert
  rw [if_neg hcond]

/-- Helper: with pairwise-distinct stat names the Python dict collects one
key/value pair per entry, in order. -/
theorem statsLoop_keys (entries : List StatEntryJson) :
    ∀ bs det tot,
      (entries.map fun e => e.stat.name).Nodup →
      (∀ e ∈ entries, ∀ p ∈ bs, p.1 ≠ e.stat.name) →
      (statsLoop entries bs det tot).1 =
        bs ++ entries.map (fun e => (e.stat.name, e.base_stat)) := by
  induction entries with
  | nil => intro bs det tot _ _; simp [statsLoop]
  | cons e rest ih =>
      intro bs det tot hnd hdisj
      rw [List.map_cons, List.nodup_cons] at hnd
      have hfresh : ∀ p ∈ bs, p.1 ≠ e.stat.name :=
        fun p hp => hdisj e (List.mem_cons_self e rest) p hp
      have hdisj2 : ∀ e' ∈ rest, ∀ p ∈ bs ++ [(e.stat.name, e.base_stat)],
          p.1 ≠ e'.stat.name := by
        intro e' he' p hp
        rcases List.mem_append.mp hp with hp | hp
        · exact hdisj e' (List.mem_cons_of_mem e he') p hp
        · have hpe : p = (e.stat.name, e.base_stat) := by simpa using hp
          subst hpe
          intro hcontra
          simp only at hcontra
          exact hnd.1 (by rw [hcontra]; exact List.mem_map_of_mem _ he')
      rw [show statsLoop (e :: rest) bs det tot =
        statsLoop rest (dictInsert bs e.stat.name e.base_stat)
          (det ++ [⟨e.stat.name, e.base_stat, e.effort⟩]) (tot + e.base_stat) from rfl]
      rw [dictInsert_fresh bs e.stat.name e.base_stat hfresh,
        ih _ _ _ hnd.2 hdisj2]
      simp

/-- C7: whenever `get_pokemon_stats` succeeds and the returned stat names
are pairwise distinct (as the PokéAPI's six stat names are),
`total_base_stats` equals the sum of the values of the `base_stats` mapping,
and `stat_details` holds exactly one entry per stat (its length equals the
number of `base_stats` entries). -/
theorem total_base_stats_is_sum
    (fetch : String → FetchOutcome PokemonStatsJson) (name : String) (r : StatsResult)
    (hok : (get_pokemon_stats fetch name).1 = .ok r)
    (hnodup : (r.stat_details.map StatDetail.stat_name).Nodup) :
    r.total_base_stats = (r.base_stats.map Prod.snd).sum ∧
    r.base_stats.length = r.stat_details.length := by
  unfold get_pokemon_stats at hok
  by_cases hv : name = "" ∨ pyStrip name = ""
  · rw [if_pos hv] at hok
    exact absurd hok (by simp)
  · rw [if_neg hv] at hok
    have hbody : (get_pokemon_stats_body fetch name (pyStrip (pyLower name))).1 = .ok r :=
      (applyExceptChain_ok_iff statsExceptChain _ r).mp hok
    unfold get_pokemon_stats_body at hbody
    cases hf : fetch (pokemon_url (pyStrip (pyLower name))) with
    | timeout => rw [hf] at hbody; exact absurd hbody (by simp)
    | connectionError => rw [hf] at hbody; exact absurd hbody (by simp)
    | status code body =>
        rw [hf] at hbody
        simp only at hbody
        by_cases h404 : (code == 404) = true
        · rw [if_pos h404] at hbody
          exact absurd hbody (by simp)
        · rw [if_neg h404] at hbody
          by_cases hge : 400 ≤ code
          · rw [if_pos hge] at hbody
            exact absurd hbody (by simp)
          · rw [if_neg hge] at hbody
            cases hstats : body.stats with
            | none => rw [hstats] at hbody; exact absurd hbody (by simp)
            | some entries =>
                rw [hstats] at hbody
                simp only at hbody
                cases hname : body.name with
                | none => rw [hname] at hbody; exact absurd hbody (by simp)
                | some nm =>
                    rw [hname] at hbody
                    simp only at hbody
                    cases hid : body.id with
                    | none => rw [hid] at hbody; exact absurd hbody (by simp)
                    | some pid =>
                        rw [hid] at hbody
                        simp only [Except.ok.injEq] at hbody
                        subst hbody
                        have hnd : (entries.map fun e => e.stat.name).Nodup := by
                          have := hnodup
                          simp only [statsLoop_details entries [] [] 0,
                            List.nil_append, List.map_map] at this
                          simpa [Function.comp] using this
                        have hkeys := statsLoop_keys entries [] [] 0 hnd
                          (by intro e he p hp; simp at hp)
                        constructor
                        · simp only [statsLoop_total entries [] [] 0, hkeys,
                            List.nil_append, List.map_map, zero_add]
                          rfl
                        · simp only [hkeys, statsLoop_details entries [] [] 0]
                          simp

/-- C7 witness: charizard's six stats — the returned total 534 equals the
sum of the six `base_stats` values and `stat_details` has six entries. -/
theorem total_base_stats_is_sum_witness :
    (get_pokemon_stats fetchCharizard "charizard").1 = .ok charizardResult ∧
    (charizardResult.stat_details.map StatDetail.stat_name).Nodup ∧
    charizardResult.total_base_stats = (charizardResult.base_stats.map Prod.snd).sum ∧
    charizardResult.base_stats.length = charizardResult.stat_details.length := by
  refine ⟨by decide, by decide, ?_, ?_⟩
  · exact (total_base_stats_is_sum fetchCharizard "charizard" charizardResult
      (by decide) (by decide)).1
  · exact (total_base_stats_is_sum fetchCharizard "charizard" charizardResult
      (by decide) (by decide)).2

/-- Helper: the `try` body of `get_pokemon_stats` mentions the original
argument only inside the 404 error message: for a shared clean name the
requested URLs coincide and the success results coincide. -/
theorem stats_body_name_only_in_404
    (fetch : String → FetchOutcome PokemonStatsJson) (n1 n2 clean : String) :
    (get_pokemon_stats_body fetch n1 clean).2 = (get_pokemon_stats_body fetch n2 clean).2 ∧
    ∀ r, (get_pokemon_stats_body fetch n1 clean).1 = .ok r ↔
        (get_pokemon_stats_body fetch n2 clean).1 = .ok r := by
  unfold get_pokemon_stats_body
  cases fetch (pokemon_url clean) with
  | timeout => exact ⟨rfl, fun r => Iff.rfl⟩
  | connectionError => exact ⟨rfl, fun r => Iff.rfl⟩
  | status code body =>
      by_cases h404 : (code == 404) = true
      · exact ⟨by simp [h404], fun r => by simp [h404]⟩
      · exact ⟨by simp [h404], fun r => by simp [h404]⟩

/-- C10 amended: for arguments accepted by validation (non-empty after
stripping), the two tool functions are invariant under letter case and
surrounding whitespace of the name: `get_pokemon_abilities` returns
identical results and logs, and `get_pokemon_stats` issues identical
upstream requests and has identical success results (only its 404 error
message echoes the original argument).  The invariance does not extend to
the whitespace-only arguments rejected by neither function consistently. -/
theorem clean_name_invariance
    (fetchP : String → FetchOutcome PokemonAbilitiesJson)
    (fetchA : String → FetchOutcome AbilityDetailJson)
    (fetchS : String → FetchOutcome PokemonStatsJson)
    (a b : String)
    (h : pyStrip (pyLower a) = pyStrip (pyLower b))
    (ha : pyStrip a ≠ "") (hb : pyStrip b ≠ "") :
    get_pokemon_abilities fetchP fetchA a = get_pokemon_abilities fetchP fetchA b ∧
    (get_pokemon_stats fetchS a).2 = (get_pokemon_stats fetchS b).2 ∧
    ∀ r, (get_pokemon_stats fetchS a).1 = .ok r ↔ (get_pokemon_stats fetchS b).1 = .ok r := by
  have ha0 : a ≠ "" := fun hA => ha (by rw [hA]; rfl)
  have hb0 : b ≠ "" := fun hB => hb (by rw [hB]; rfl)
  have hva : ¬(a = "" ∨ pyStrip a = "") := by
    push_neg
    exact ⟨ha0, ha⟩
  have hvb : ¬(b = "" ∨ pyStrip b = "") := by
    push_neg
    exact ⟨hb0, hb⟩
  have e1 : get_pokemon_stats fetchS a =
      applyExceptChain statsExceptChain
        (get_pokemon_stats_body fetchS a (pyStrip (pyLower a))) := by
    unfold get_pokemon_stats
    rw [if_neg hva]
  have e2 : get_pokemon_stats fetchS b =
      applyExceptChain statsExceptChain
        (get_pokemon_stats_body fetchS b (pyStrip (pyLower b))) := by
    unfold get_pokemon_stats
    rw [if_neg hvb]
  refine ⟨?_, ?_, ?_⟩
  · unfold get_pokemon_abilities
    rw [if_neg ha0, if_neg hb0, h]
  · rw [e1, e2, applyExceptChain_log, applyExceptChain_log, h]
    exact (stats_body_name_only_in_404 fetchS a b (pyStrip (pyLower b))).1
  · intro r
    rw [e1, e2, applyExceptChain_ok_iff, applyExceptChain_ok_iff, h]
    exact (stats_body_name_only_in_404 fetchS a b (pyStrip (pyLower b))).2 r

/-- C10 witness: `" PIKACHU "` and `"pikachu"` differ only in case and
surrounding whitespace and behave identically against fixed upstream
oracles. -/
theorem clean_name_invariance_witness :
    get_pokemon_abilities afetch404 dfetchTimeout " PIKACHU " =
      get_pokemon_abilities afetch404 dfetchTimeout "pikachu" ∧
    (get_pokemon_stats fetchCharizard " PIKACHU ").2 =
      (get_pokemon_stats fetchCharizard "pikachu").2 ∧
    ∀ r, (get_pokemon_stats fetchCharizard " PIKACHU ").1 = .ok r ↔
        (get_pokemon_stats fetchCharizard "pikachu").1 = .ok r :=
  clean_name_invariance afetch404 dfetchTimeout fetchCharizard " PIKACHU " "pikachu"
    (by decide) (by decide) (by decide)

end PokeMcp
